import Mathlib

/-!
Verification of the nexacro-dev-license-request repository: a shallow
embedding of `src/config.py`, `src/exceptions.py`, `src/session_manager.py`
and `src/nexacro_license_requester.py`, together with theorems settling the
specification claims about them.

HTTP transport is modelled as an environment: each network call's outcome
(a transport failure or a response body) is a parameter, and the Python
functions are embedded as pure functions of those outcomes.
-/

namespace Nexacro

/-- Embeds Python's `sub in s` substring test (`str.__contains__`). -/
def strContains (s pat : String) : Bool := decide (pat.data <:+: s.data)

/-- Embeds Python's `str.upper` on a single character (ASCII range, which is
the only range the classification constants use). -/
def pyCharUpper (c : Char) : Char :=
  if 97 ≤ c.toNat ∧ c.toNat ≤ 122 then Char.ofNat (c.toNat - 32) else c

/-- Embeds Python's `str.upper` over a whole string. -/
def pyUpper (s : String) : String := ⟨s.data.map pyCharUpper⟩

/-- Embeds Python's `", ".join(names)`. -/
def joinComma : List String → String
  | [] => ""
  | [a] => a
  | a :: b :: rest => a ++ ", " ++ joinComma (b :: rest)

/-- The exception taxonomy of `src/exceptions.py`, plus `otherException` for
any Python exception outside the taxonomy (caught by the orchestrator's
generic `except Exception` clause). -/
inductive PyException where
  | networkError (msg : String)
  | authenticationError (msg : String)
  | licenseRequestError (msg : String)
  | otherException (typeName msg : String)
deriving DecidableEq

/-- Transport-layer failures of one HTTP call, as distinguished by the
`except requests.exceptions.*` clauses in `session_manager.py`. -/
inductive TransportFailure where
  | timeout
  | connectionError
  | httpError (msg : String)
deriving DecidableEq

/-- Errors raised by `src/config.py` (Python `ValueError`; the spec's
taxonomy names this category ConfigurationError). -/
inductive ConfigError where
  | configurationError (msg : String)
deriving DecidableEq

end Nexacro

namespace Nexacro

/-- The `Config` dataclass of `src/config.py` (the four credential fields;
the URL and timeout fields are constants and are modelled as such below). -/
structure Config where
  user_id : String
  user_pass : String
  customer_id : String
  email : String
deriving DecidableEq

def homepage_url : String := "https://support.tobesoft.co.kr/Support/?menu=home"

/-- `required_vars` in `Config.from_env`. -/
def required_vars : List String :=
  ["NEXACRO_USER_ID", "NEXACRO_USER_PASS", "NEXACRO_EMAIL"]

/-- An OS environment: a finite map from variable names to values.
`os.getenv` returns the first binding, or `None`. -/
def getenv (env : List (String × String)) (name : String) : Option String :=
  (env.find? (fun p => p.1 == name)).map Prod.snd

/-- Embeds Python's `not os.getenv(var)`: true when the variable is unset
or set to the empty string (both are falsy in Python). -/
def envFalsy (env : List (String × String)) (name : String) : Bool :=
  match getenv env name with
  | none => true
  | some v => v == ""

/-- Embeds `os.environ[name]` on the success path (the variable is known
to be present and non-empty there; default "" keeps the function total). -/
def environGet (env : List (String × String)) (name : String) : String :=
  (getenv env name).getD ""

/-- `Config.from_env` of `src/config.py`: collects every required variable
that is missing (unset or empty), raises a `ValueError` naming all of them,
otherwise builds the config with `customer_id = user_id`. -/
def from_env (env : List (String × String)) : Except ConfigError Config :=
  let missing := required_vars.filter (envFalsy env)
  if missing.isEmpty then
    let user_id := environGet env "NEXACRO_USER_ID"
    .ok { user_id := user_id
          user_pass := environGet env "NEXACRO_USER_PASS"
          customer_id := user_id
          email := environGet env "NEXACRO_EMAIL" }
  else
    .error (.configurationError
      ("Missing required environment variables: " ++ joinComma missing))

/-- `Config.validate`: rejects an empty email or one without `"@"`. -/
def validate (cfg : Config) : Except ConfigError Unit :=
  if cfg.email == "" || !(strContains cfg.email "@") then
    .error (.configurationError ("Invalid email format: " ++ cfg.email))
  else
    .ok ()

end Nexacro

namespace Nexacro

/-- `SessionManager.establish_session`: on a successful homepage GET the
cookies are returned; each transport failure becomes a `NetworkError` with
the message the `except` clauses build. -/
def establish_session (r : Except TransportFailure (List (String × String))) :
    Except PyException (List (String × String)) :=
  match r with
  | .ok cookies => .ok cookies
  | .error .timeout => .error (.networkError ("Request timeout: " ++ homepage_url))
  | .error .connectionError => .error (.networkError ("Connection failed: " ++ homepage_url))
  | .error (.httpError m) => .error (.networkError ("HTTP error: " ++ m))

/-- `SessionManager.login`: classifies the login POST outcome. A response
body is accepted exactly when `"SUCCESS" in response.text.upper()`; any
other body raises `AuthenticationError`; transport failures raise
`NetworkError`. -/
def login (r : Except TransportFailure String) : Except PyException Bool :=
  match r with
  | .ok body =>
    if strContains (pyUpper body) "SUCCESS" then .ok true
    else .error (.authenticationError "Login failed: Invalid credentials or response")
  | .error .timeout => .error (.networkError "Request timeout during login")
  | .error .connectionError => .error (.networkError "Connection failed during login")
  | .error (.httpError m) => .error (.networkError ("HTTP error during login: " ++ m))

/-- `SessionManager.request_license_email`: classifies the license GET
outcome. `"FAIL" in response.text.upper()` is checked first and raises
`LicenseRequestError`; else `"SUCCESS"` yields true; else a distinct
unknown-response `LicenseRequestError` is raised. -/
def request_license_email (r : Except TransportFailure String) : Except PyException Bool :=
  match r with
  | .ok body =>
    if strContains (pyUpper body) "FAIL" then
      .error (.licenseRequestError "License request failed")
    else if strContains (pyUpper body) "SUCCESS" then
      .ok true
    else
      .error (.licenseRequestError "License request failed: Unknown response")
  | .error .timeout => .error (.networkError "Request timeout during license request")
  | .error .connectionError => .error (.networkError "Connection failed during license request")
  | .error (.httpError m) => .error (.networkError ("HTTP error during license request: " ++ m))

/-- `SessionManager._build_login_xml`: the XML login body, built by direct
f-string interpolation of `user_id` and `user_pass` into the template
(the source performs no escaping of the interpolated values). -/
def build_login_xml (user_id user_pass : String) : String :=
  "<?xml version=\"1.0\" encoding=\"UTF-8\"?>\n" ++
  "<Root xmlns=\"http://www.nexacroplatform.com/platform/dataset\">\n" ++
  "\t<Parameters>\n" ++
  "\t\t<Parameter id=\"RTYPE\">XML</Parameter>\n" ++
  "\t\t<Parameter id=\"DB\">CS</Parameter>\n" ++
  "\t\t<Parameter id=\"DBUSER\">POTAL_USER</Parameter>\n" ++
  "\t</Parameters>\n" ++
  "\t<Dataset id=\"input\">\n" ++
  "\t\t<ColumnInfo>\n" ++
  "\t\t\t<Column id=\"userId\" type=\"STRING\" size=\"256\" />\n" ++
  "\t\t\t<Column id=\"userPass\" type=\"STRING\" size=\"256\" />\n" ++
  "\t\t</ColumnInfo>\n" ++
  "\t\t<Rows>\n" ++
  "\t\t\t<Row>\n" ++
  "\t\t\t\t<Col id=\"userId\">" ++ user_id ++ "</Col>\n" ++
  "\t\t\t\t<Col id=\"userPass\">" ++ user_pass ++ "</Col>\n" ++
  "\t\t\t</Row>\n" ++
  "\t\t</Rows>\n" ++
  "\t</Dataset>\n" ++
  "</Root>"

/-- `SessionManager._build_license_params`: the query parameters of the
license GET. -/
def build_license_params (cfg : Config) : List (String × String) :=
  [("service", "xupservice"),
   ("domain", "NEXTp"),
   ("model", "CE_LicenseEMailSend_R01"),
   ("format", "xml"),
   ("version", "xplatform"),
   ("p_ConType", "TECH2"),
   ("p_Product", "NP14"),
   ("p_Language", "KOR"),
   ("p_CustomID", cfg.customer_id),
   ("p_Email", cfg.email),
   ("p_Merge", "N"),
   ("zip", "false")]

end Nexacro

namespace Nexacro

/-- The three steps of `NexacroLicenseRequester.request_license`. -/
inductive Step where
  | establishSession
  | loginStep
  | licenseStep
deriving DecidableEq

/-- The observable outcome of one workflow run: the boolean the orchestrator
returns, the (category, message) pair of the failure summary when it failed,
and the steps that actually executed, in order. -/
structure WorkflowResult where
  success : Bool
  summary : Option (String × String)
  executed : List Step
deriving DecidableEq

/-- The error category and message the orchestrator's `except` clauses put
into the failure summary for each exception. -/
def summarize (e : PyException) : String × String :=
  match e with
  | .networkError m => ("Network error", m)
  | .authenticationError m => ("Authentication failed", m)
  | .licenseRequestError m => ("License request failed", m)
  | .otherException _ m => ("Unexpected error", m)

/-- The outcomes the environment supplies to one workflow run: what each of
the three session calls would produce if executed (any Python exception is
possible at each call site, hence `PyException` and not only the step's
documented errors). -/
structure WorkflowEnv where
  establishOutcome : Except PyException (List (String × String))
  loginOutcome : Except PyException Bool
  licenseOutcome : Except PyException Bool

/-- `NexacroLicenseRequester.request_license`: runs the three steps in
order, stops at the first exception, catches every exception and converts it
to `success = false` plus a categorized summary. -/
def request_license (env : WorkflowEnv) : WorkflowResult :=
  match env.establishOutcome with
  | .error e =>
    { success := false, summary := some (summarize e), executed := [.establishSession] }
  | .ok _ =>
    match env.loginOutcome with
    | .error e =>
      { success := false, summary := some (summarize e),
        executed := [.establishSession, .loginStep] }
    | .ok _ =>
      match env.licenseOutcome with
      | .error e =>
        { success := false, summary := some (summarize e),
          executed := [.establishSession, .loginStep, .licenseStep] }
      | .ok _ =>
        { success := true, summary := none,
          executed := [.establishSession, .loginStep, .licenseStep] }

/-- The workflow driven by raw transport outcomes: each session call's
classification applied to its HTTP outcome, then the orchestrator. -/
def runWorkflow (homepageR : Except TransportFailure (List (String × String)))
    (loginR licenseR : Except TransportFailure String) : WorkflowResult :=
  request_license
    { establishOutcome := establish_session homepageR
      loginOutcome := login loginR
      licenseOutcome := request_license_email licenseR }

/-- `main` of `src/nexacro_license_requester.py`: loads and validates the
configuration (any `ValueError` gives exit code 1), runs the workflow, and
returns 0 exactly when the workflow succeeded. -/
def mainExit (osEnv : List (String × String))
    (homepageR : Except TransportFailure (List (String × String)))
    (loginR licenseR : Except TransportFailure String) : Nat :=
  match from_env osEnv with
  | .error _ => 1
  | .ok cfg =>
    match validate cfg with
    | .error _ => 1
    | .ok _ => if (runWorkflow homepageR loginR licenseR).success then 0 else 1

end Nexacro

namespace Nexacro

/-- Substring containment survives prepending text. -/
theorem strContains_append_right (s t pat : String) (h : strContains t pat = true) :
    strContains (s ++ t) pat = true := by
  simp only [strContains, decide_eq_true_eq] at *
  rw [String.data_append]
  exact h.trans (List.suffix_append s.data t.data).isInfix

/-- Substring containment survives appending text. -/
theorem strContains_append_left (s t pat : String) (h : strContains s pat = true) :
    strContains (s ++ t) pat = true := by
  simp only [strContains, decide_eq_true_eq] at *
  rw [String.data_append]
  exact h.trans (List.prefix_append s.data t.data).isInfix

/-- Every string contains itself. -/
theorem strContains_self (s : String) : strContains s s = true := by
  simp [strContains, List.infix_refl]

/-- Each element of a list is a substring of its comma-join (Python's
`", ".join` keeps every element). -/
theorem mem_joinComma_contains (v : String) (l : List String) (h : v ∈ l) :
    strContains (joinComma l) v = true := by
  induction l with
  | nil => cases h
  | cons a rest ih =>
    cases rest with
    | nil =>
      rcases List.mem_cons.mp h with h | h
      · subst h; exact strContains_self v
      · cases h
    | cons b r =>
      rcases List.mem_cons.mp h with h | h
      · subst h
        exact strContains_append_left _ _ _ (strContains_append_left _ _ _
          (strContains_self v))
      · exact strContains_append_right _ _ _ (ih h)

/-- When every required variable is present and non-empty, `from_env`
returns the config built from the environment. -/
theorem from_env_ok_of_all_present (env : List (String × String))
    (h : ∀ v ∈ required_vars, envFalsy env v = false) :
    from_env env = .ok
      { user_id := environGet env "NEXACRO_USER_ID"
        user_pass := environGet env "NEXACRO_USER_PASS"
        customer_id := environGet env "NEXACRO_USER_ID"
        email := environGet env "NEXACRO_EMAIL" } := by
  have hf : required_vars.filter (envFalsy env) = [] :=
    List.filter_eq_nil_iff.mpr (fun a ha => by simp [h a ha])
  simp [from_env, hf]

/-- When some required variable is missing, `from_env` raises the
`ValueError` whose message joins the complete list of missing variables. -/
theorem from_env_error_of_missing (env : List (String × String)) (v : String)
    (hv : v ∈ required_vars) (hf : envFalsy env v = true) :
    from_env env = .error (.configurationError
      ("Missing required environment variables: " ++
        joinComma (required_vars.filter (envFalsy env)))) := by
  have hne : required_vars.filter (envFalsy env) ≠ [] := by
    intro h0
    have := List.filter_eq_nil_iff.mp h0 v hv
    simp [hf] at this
  have hie : (required_vars.filter (envFalsy env)).isEmpty = false := by
    cases hfe : required_vars.filter (envFalsy env) with
    | nil => exact absurd hfe hne
    | cons a t => rfl
  simp [from_env, hie]

/-- The missing-variables message mentions every missing required
variable. -/
theorem missing_message_mentions (env : List (String × String)) (w : String)
    (hw : w ∈ required_vars) (hwf : envFalsy env w = true) :
    strContains ("Missing required environment variables: " ++
      joinComma (required_vars.filter (envFalsy env))) w = true := by
  have hmem : w ∈ required_vars.filter (envFalsy env) :=
    List.mem_filter.mpr ⟨hw, hwf⟩
  exact strContains_append_right _ _ _ (mem_joinComma_contains w _ hmem)

end Nexacro

namespace Nexacro

/-- C1: `request_license_email` classifies each license response body with
exact precedence: a body whose uppercasing contains "FAIL" raises
`LicenseRequestError "License request failed"`; otherwise one containing
"SUCCESS" returns true; otherwise it raises the distinct unknown-response
`LicenseRequestError`. A body with both substrings therefore fails, and the
empty body is the unknown-response failure. -/
theorem license_classification_precedence (body : String) :
    (strContains (pyUpper body) "FAIL" = true →
      request_license_email (.ok body) =
        .error (.licenseRequestError "License request failed")) ∧
    (strContains (pyUpper body) "FAIL" = false →
      strContains (pyUpper body) "SUCCESS" = true →
      request_license_email (.ok body) = .ok true) ∧
    (strContains (pyUpper body) "FAIL" = false →
      strContains (pyUpper body) "SUCCESS" = false →
      request_license_email (.ok body) =
        .error (.licenseRequestError "License request failed: Unknown response")) ∧
    request_license_email (.ok "") =
      .error (.licenseRequestError "License request failed: Unknown response") := by
  refine ⟨fun h1 => ?_, fun h1 h2 => ?_, fun h1 h2 => ?_, by rfl⟩
  · simp [request_license_email, h1]
  · simp [request_license_email, h1, h2]
  · simp [request_license_email, h1, h2]

/-- Witness for C1: a body with both substrings fails, a SUCCESS body
succeeds, an unrelated body is the unknown-response failure. -/
theorem license_classification_precedence_witness :
    request_license_email (.ok "xFAILySUCCESSz") =
      .error (.licenseRequestError "License request failed") ∧
    request_license_email (.ok "done SUCCESS done") = .ok true ∧
    request_license_email (.ok "mystery") =
      .error (.licenseRequestError "License request failed: Unknown response") :=
  ⟨(license_classification_precedence "xFAILySUCCESSz").1 (by decide),
   (license_classification_precedence "done SUCCESS done").2.1 (by decide) (by decide),
   (license_classification_precedence "mystery").2.2.1 (by decide) (by decide)⟩

/-- C3: `login` succeeds exactly when the body, uppercased, contains
"SUCCESS"; any other body (including the empty one) raises
`AuthenticationError`. -/
theorem login_success_iff (body : String) :
    (login (.ok body) = .ok true ↔ strContains (pyUpper body) "SUCCESS" = true) ∧
    (strContains (pyUpper body) "SUCCESS" = false →
      login (.ok body) =
        .error (.authenticationError "Login failed: Invalid credentials or response")) := by
  cases h : strContains (pyUpper body) "SUCCESS" <;> simp [login, h]

/-- Witness for C3: a mixed-case success body logs in; the empty body is an
authentication failure. -/
theorem login_success_iff_witness :
    login (.ok "result: Success!") = .ok true ∧
    login (.ok "") =
      .error (.authenticationError "Login failed: Invalid credentials or response") :=
  ⟨(login_success_iff "result: Success!").1.mpr (by decide),
   (login_success_iff "").2 (by decide)⟩

/-- C10: the license classification only depends on the uppercased body, so
bodies equal up to letter case classify identically; in particular lowercase
"fail" is a failure and lowercase "success" is a success. -/
theorem license_classification_case_insensitive :
    (∀ b1 b2 : String, pyUpper b1 = pyUpper b2 →
      request_license_email (.ok b1) = request_license_email (.ok b2)) ∧
    request_license_email (.ok "fail") =
      .error (.licenseRequestError "License request failed") ∧
    request_license_email (.ok "success") = .ok true := by
  refine ⟨fun b1 b2 h => ?_, by rfl, by rfl⟩
  simp [request_license_email, h]

/-- Witness for C10: two case variants of FAIL classify identically. -/
theorem license_classification_case_insensitive_witness :
    request_license_email (.ok "Fail") = request_license_email (.ok "fAiL") :=
  license_classification_case_insensitive.1 "Fail" "fAiL" (by decide)

/-- C2: the orchestrator never proceeds past the first failing step: if
`establish_session` fails only that step executed; if `login` fails the
license step never executes; in particular, for a login body without
"SUCCESS", the run performs exactly one login step and no license GET and
returns success = false. -/
theorem workflow_short_circuit :
    (∀ env : WorkflowEnv, ∀ e, env.establishOutcome = .error e →
      (request_license env).executed = [Step.establishSession] ∧
      (request_license env).success = false) ∧
    (∀ env : WorkflowEnv, ∀ c e, env.establishOutcome = .ok c →
      env.loginOutcome = .error e →
      (request_license env).executed = [Step.establishSession, Step.loginStep] ∧
      (request_license env).success = false ∧
      Step.licenseStep ∉ (request_license env).executed) ∧
    (∀ hp licr, ∀ body : String, strContains (pyUpper body) "SUCCESS" = false →
      (∃ c, establish_session hp = Except.ok c) →
      (runWorkflow hp (.ok body) licr).executed =
        [Step.establishSession, Step.loginStep] ∧
      (runWorkflow hp (.ok body) licr).success = false) := by
  refine ⟨fun env e h1 => ?_, fun env c e h1 h2 => ?_,
    fun hp licr body hb hc => ?_⟩
  · simp [request_license, h1]
  · simp [request_license, h1, h2]
  · obtain ⟨c, hc⟩ := hc
    simp [runWorkflow, request_license, hc, login, hb]

/-- Witness for C2: a FAIL login body stops the run after the login step. -/
theorem workflow_short_circuit_witness :
    (runWorkflow (.ok []) (.ok "<r>FAIL</r>") (.ok "SUCCESS")).executed =
      [Step.establishSession, Step.loginStep] ∧
    (runWorkflow (.ok []) (.ok "<r>FAIL</r>") (.ok "SUCCESS")).success = false :=
  workflow_short_circuit.2.2 (.ok []) (.ok "SUCCESS") "<r>FAIL</r>" (by decide)
    ⟨[], rfl⟩

/-- C4: the orchestrator always returns a boolean (no exception
propagates), and each exception yields success = false with its category
and message in the summary: network, authentication and license errors have
their own categories, and any exception outside the taxonomy is the
"Unexpected error" category. -/
theorem workflow_catches_exceptions :
    (∀ env : WorkflowEnv,
      (request_license env).success = true ∨ (request_license env).success = false) ∧
    (∀ env : WorkflowEnv, ∀ e, env.establishOutcome = .error e →
      request_license env =
        ⟨false, some (summarize e), [Step.establishSession]⟩) ∧
    (∀ env : WorkflowEnv, ∀ c e, env.establishOutcome = .ok c →
      env.loginOutcome = .error e →
      request_license env =
        ⟨false, some (summarize e), [Step.establishSession, Step.loginStep]⟩) ∧
    (∀ env : WorkflowEnv, ∀ c b e, env.establishOutcome = .ok c →
      env.loginOutcome = .ok b → env.licenseOutcome = .error e →
      request_license env =
        ⟨false, some (summarize e),
          [Step.establishSession, Step.loginStep, Step.licenseStep]⟩) ∧
    (∀ m, summarize (.networkError m) = ("Network error", m)) ∧
    (∀ m, summarize (.authenticationError m) = ("Authentication failed", m)) ∧
    (∀ m, summarize (.licenseRequestError m) = ("License request failed", m)) ∧
    (∀ t m, summarize (.otherException t m) = ("Unexpected error", m)) := by
  refine ⟨fun env => ?_, fun env e h1 => ?_, fun env c e h1 h2 => ?_,
    fun env c b e h1 h2 h3 => ?_, fun m => rfl, fun m => rfl, fun m => rfl,
    fun t m => rfl⟩
  · cases h : (request_license env).success
    · exact Or.inr rfl
    · exact Or.inl rfl
  · simp [request_license, h1]
  · simp [request_license, h1, h2]
  · simp [request_license, h1, h2, h3]

/-- Witness for C4: an exception outside the taxonomy at the first step is
caught and summarized as an unexpected error. -/
theorem workflow_catches_exceptions_witness :
    request_license
      ⟨.error (.otherException "RuntimeError" "boom"), .ok true, .ok true⟩ =
      ⟨false, some ("Unexpected error", "boom"), [Step.establishSession]⟩ :=
  workflow_catches_exceptions.2.1
    ⟨.error (.otherException "RuntimeError" "boom"), .ok true, .ok true⟩
    (.otherException "RuntimeError" "boom") rfl

/-- C5: `from_env` succeeds when every required variable is present, and
fails when any is missing with a message that joins the complete list of
missing variables — every missing name, not just the first, occurs in the
message. -/
theorem from_env_enumerates_missing :
    (∀ env, (∀ v ∈ required_vars, envFalsy env v = false) →
      ∃ cfg, from_env env = .ok cfg) ∧
    (∀ env, ∀ v ∈ required_vars, envFalsy env v = true →
      from_env env = .error (.configurationError
        ("Missing required environment variables: " ++
          joinComma (required_vars.filter (envFalsy env)))) ∧
      ∀ w ∈ required_vars, envFalsy env w = true →
        strContains ("Missing required environment variables: " ++
          joinComma (required_vars.filter (envFalsy env))) w = true) := by
  refine ⟨fun env h => ⟨_, from_env_ok_of_all_present env h⟩,
    fun env v hv hf => ⟨from_env_error_of_missing env v hv hf,
      fun w hw hwf => missing_message_mentions env w hw hwf⟩⟩

/-- Witness for C5: a full environment loads; an environment with only the
user id set fails with a message naming both missing variables. -/
theorem from_env_enumerates_missing_witness :
    (∃ cfg, from_env [("NEXACRO_USER_ID", "u"), ("NEXACRO_USER_PASS", "p"),
        ("NEXACRO_EMAIL", "e@x")] = .ok cfg) ∧
    from_env [("NEXACRO_USER_ID", "u")] =
      .error (.configurationError
        "Missing required environment variables: NEXACRO_USER_PASS, NEXACRO_EMAIL") ∧
    strContains "Missing required environment variables: NEXACRO_USER_PASS, NEXACRO_EMAIL"
      "NEXACRO_EMAIL" = true :=
  ⟨from_env_enumerates_missing.1 _ (by decide),
   (from_env_enumerates_missing.2 [("NEXACRO_USER_ID", "u")] "NEXACRO_USER_PASS"
      (by decide) (by decide)).1,
   (from_env_enumerates_missing.2 [("NEXACRO_USER_ID", "u")] "NEXACRO_USER_PASS"
      (by decide) (by decide)).2 "NEXACRO_EMAIL" (by decide) (by decide)⟩

/-- C9: a required variable set to the empty string is treated exactly as
if absent: it is falsy, `from_env` fails, and the variable's name occurs in
the missing-variables message. -/
theorem empty_env_var_treated_missing :
    ∀ env, ∀ v ∈ required_vars, getenv env v = some "" →
      envFalsy env v = true ∧
      ∃ msg, from_env env = .error (.configurationError msg) ∧
        strContains msg v = true := by
  intro env v hv hg
  have hf : envFalsy env v = true := by simp [envFalsy, hg]
  exact ⟨hf, _, from_env_error_of_missing env v hv hf,
    missing_message_mentions env v hv hf⟩

/-- Witness for C9: the user id set to "" makes loading fail and the
message names NEXACRO_USER_ID. -/
theorem empty_env_var_treated_missing_witness :
    envFalsy [("NEXACRO_USER_ID", "")] "NEXACRO_USER_ID" = true ∧
    ∃ msg, from_env [("NEXACRO_USER_ID", "")] = .error (.configurationError msg) ∧
      strContains msg "NEXACRO_USER_ID" = true :=
  empty_env_var_treated_missing [("NEXACRO_USER_ID", "")] "NEXACRO_USER_ID"
    (by decide) (by decide)

/-- C7: every successfully loaded config has customer_id equal to user_id,
and that value is what the license query submits as p_CustomID. -/
theorem customer_id_defaults_to_user_id :
    ∀ env cfg, from_env env = .ok cfg →
      cfg.customer_id = cfg.user_id ∧
      List.lookup "p_CustomID" (build_license_params cfg) = some cfg.customer_id ∧
      List.lookup "p_CustomID" (build_license_params cfg) = some cfg.user_id := by
  intro env cfg h
  simp only [from_env] at h
  split at h
  · rw [Except.ok.injEq] at h
    subst h
    exact ⟨rfl, rfl, rfl⟩
  · cases h

/-- Witness for C7: a concrete environment loads a config whose customer id
is the user id and is the p_CustomID parameter. -/
theorem customer_id_defaults_to_user_id_witness :
    (Config.mk "u" "p" "u" "e@x").customer_id = (Config.mk "u" "p" "u" "e@x").user_id ∧
    List.lookup "p_CustomID" (build_license_params (Config.mk "u" "p" "u" "e@x")) =
      some (Config.mk "u" "p" "u" "e@x").customer_id ∧
    List.lookup "p_CustomID" (build_license_params (Config.mk "u" "p" "u" "e@x")) =
      some (Config.mk "u" "p" "u" "e@x").user_id :=
  customer_id_defaults_to_user_id
    [("NEXACRO_USER_ID", "u"), ("NEXACRO_USER_PASS", "p"), ("NEXACRO_EMAIL", "e@x")]
    (Config.mk "u" "p" "u" "e@x") (by rfl)

/-- C8: `main` exits 0 exactly when the configuration loads, validates and
the workflow succeeds; in every other case (configuration error, workflow
failure) it exits 1, and those are the only exit codes. -/
theorem exit_code_correct :
    ∀ osEnv hp lr licr,
      (mainExit osEnv hp lr licr = 0 ↔
        ∃ cfg, from_env osEnv = .ok cfg ∧ validate cfg = .ok () ∧
          (runWorkflow hp lr licr).success = true) ∧
      (mainExit osEnv hp lr licr = 0 ∨ mainExit osEnv hp lr licr = 1) := by
  intro osEnv hp lr licr
  unfold mainExit
  rcases hfe : from_env osEnv with e | cfg
  · simp [hfe]
  · rcases hv : validate cfg with e2 | u
    · simp [hfe, hv]
    · cases u
      cases hs : (runWorkflow hp lr licr).success
      · simp [hfe, hv, hs]
      · simp [hfe, hv, hs]

/-- Witness for C8: a complete environment and all-SUCCESS responses exit
with code 0. -/
theorem exit_code_correct_witness :
    mainExit [("NEXACRO_USER_ID", "u"), ("NEXACRO_USER_PASS", "p"),
      ("NEXACRO_EMAIL", "e@x")] (.ok []) (.ok "SUCCESS") (.ok "SUCCESS") = 0 :=
  (exit_code_correct [("NEXACRO_USER_ID", "u"), ("NEXACRO_USER_PASS", "p"),
      ("NEXACRO_EMAIL", "e@x")] (.ok []) (.ok "SUCCESS") (.ok "SUCCESS")).1.mpr
    ⟨Config.mk "u" "p" "u" "e@x", by rfl, by rfl, by rfl⟩

set_option maxRecDepth 20000 in
/-- C6 (refuting the claimed escaping): the login XML body is built by raw
interpolation — for a credential containing XML metacharacters the body
contains the raw `<` and `&` and none of the escaped forms, so the produced
document is not well-formed XML. -/
theorem build_login_xml_no_escaping :
    strContains (build_login_xml "a<b&c" "p") "<Col id=\"userId\">a<b&c</Col>" = true ∧
    strContains (build_login_xml "a<b&c" "p") "&amp;" = false ∧
    strContains (build_login_xml "a<b&c" "p") "&lt;" = false := by
  refine ⟨by decide, by decide, by decide⟩

end Nexacro
